import Mathlib

/-!
Shallow embedding of the typed fetch/validation layer of the ads-administrator
repository: the client-side HTTP client (`buildUrl`, `fetchApi` in
`frontend/src/lib/api/client.ts`) and the server-side variant (`serverFetch`
in `frontend/src/lib/api/server.ts`), together with theorems settling the
behavioural claims of the specification against these definitions.

JSON values are modelled by an inductive type; JavaScript truthiness and
nullish-ness are modelled explicitly because the source decides several
branches with `||`, `??` and `body ? ... : undefined`.  The network is an
oracle: each embedded call takes the raw `Response` (status, statusText and
the outcome of `response.json()`) as an argument and returns the outgoing
request it built, the console log it produced, and either a value or the
JavaScript error it throws.
-/

namespace AdsAdmin

/-- The JSON values a decoded response body can take (numbers are modelled as
integers; no claim depends on non-integral numerics). -/
inductive Json where
  | null : Json
  | bool (b : Bool) : Json
  | num (n : Int) : Json
  | str (s : String) : Json
  | arr (elems : List Json) : Json
  | obj (fields : List (String × Json)) : Json
deriving Repr

/-- JavaScript truthiness of a JSON value: `null`, `false`, `0` and `""` are
falsy; every array and object is truthy. -/
def Json.truthy : Json → Bool
  | .null => false
  | .bool b => b
  | .num n => n != 0
  | .str s => s != ""
  | .arr _ => true
  | .obj _ => true

/-- JavaScript property access `value.key` / `value[key]` on a decoded JSON
value: `none` (undefined) unless the value is an object carrying the key. -/
def Json.getField : Json → String → Option Json
  | .obj fields, k => (fields.find? (fun p => p.1 == k)).map Prod.snd
  | _, _ => none

/-- Truthiness of a possibly-undefined JavaScript value (undefined is falsy). -/
def truthyOpt : Option Json → Bool
  | none => false
  | some j => j.truthy

/-- Nullish-ness (undefined or null), as tested by the `??` operator. -/
def nullish : Option Json → Bool
  | none => true
  | some .null => true
  | some _ => false

/-- Whether a JSON value is the null value: JavaScript property access on
`null` throws a TypeError instead of yielding undefined, unlike access on
any other decoded JSON value. -/
def Json.isNull : Json → Bool
  | .null => true
  | _ => false

mutual

/-- `JSON.stringify` on the modelled JSON values (string escaping elided:
no claim depends on it). -/
def Json.stringify : Json → String
  | .null => "null"
  | .bool true => "true"
  | .bool false => "false"
  | .num n => toString n
  | .str s => "\"" ++ s ++ "\""
  | .arr xs => "[" ++ Json.stringifyList xs ++ "]"
  | .obj fs => "\x7b" ++ Json.stringifyFields fs ++ "\x7d"

/-- Comma-separated serialization of array elements. -/
def Json.stringifyList : List Json → String
  | [] => ""
  | [x] => Json.stringify x
  | x :: xs => Json.stringify x ++ "," ++ Json.stringifyList xs

/-- Comma-separated serialization of object fields. -/
def Json.stringifyFields : List (String × Json) → String
  | [] => ""
  | [(k, v)] => "\"" ++ k ++ "\":" ++ Json.stringify v
  | (k, v) :: fs => "\"" ++ k ++ "\":" ++ Json.stringify v ++ "," ++ Json.stringifyFields fs

end

/-- The primitive query-parameter values admitted by `RequestOptions.params`:
`string | number | boolean` (`undefined` is modelled by `Option`). -/
inductive Prim where
  | str (s : String) : Prim
  | num (n : Int) : Prim
  | bool (b : Bool) : Prim
deriving Repr

/-- JavaScript `String(value)` on the primitive parameter values. -/
def Prim.toStr : Prim → String
  | .str s => s
  | .num n => toString n
  | .bool true => "true"
  | .bool false => "false"

/-- One hexadecimal digit (uppercase), for percent-encoding. -/
def hexDigit (n : Nat) : Char :=
  if n < 10 then Char.ofNat (48 + n) else Char.ofNat (55 + n)

/-- Percent-encoding of one byte. -/
def percentByte (b : Nat) : String :=
  "%" ++ String.mk [hexDigit (b / 16), hexDigit (b % 16)]

/-- `application/x-www-form-urlencoded` encoding of one character, as
`URLSearchParams` serialization performs it: space becomes `+`, unreserved
characters stay, everything else is percent-encoded byte-wise. -/
def urlEncodeChar (c : Char) : String :=
  if c = ' ' then "+"
  else if c.isAlphanum || c = '-' || c = '.' || c = '_' || c = '*' then String.mk [c]
  else String.join (((String.mk [c]).toUTF8.toList).map (fun b => percentByte b.toNat))

/-- URL-encoding of a whole string. -/
def urlEncode (s : String) : String :=
  String.join (s.toList.map urlEncodeChar)

/-- The key/value pairs accumulated by the
`Object.entries(params).forEach(... if (value !== undefined) append ...)`
loop shared by `buildUrl` and `serverFetch`: entries with undefined value are
skipped, the rest are appended with `String(value)`. -/
def queryPairs (params : List (String × Option Prim)) : List (String × String) :=
  params.filterMap (fun p => p.2.map (fun v => (p.1, Prim.toStr v)))

/-- The query-string suffix `URL.toString()` renders from the accumulated
search parameters: empty when there are none, otherwise `?k=v&k=v&...` with
both sides URL-encoded. -/
def renderQuery : List (String × String) → String
  | [] => ""
  | ps => "?" ++ String.intercalate "&" (ps.map (fun p => urlEncode p.1 ++ "=" ++ urlEncode p.2))

/-- `API_BASE_URL` (`process.env['NEXT_PUBLIC_API_URL'] ?? 'http://localhost:8000'`),
fixed to its default; no claim depends on its value. -/
def API_BASE_URL : String := "http://localhost:8000"

/-- `buildUrl` of `client.ts`: base URL plus path, with the defined query
parameters appended URL-encoded. -/
def buildUrl (path : String) (params : Option (List (String × Option Prim))) : String :=
  API_BASE_URL ++ path ++ renderQuery (queryPairs (params.getD []))

/-- Header maps, as ordered key/value lists. -/
abbrev Headers := List (String × String)

/-- JavaScript object key assignment: the new value replaces any earlier
binding of the same key. -/
def setHeader (hs : Headers) (k v : String) : Headers :=
  (hs.filter (fun p => p.1 != k)) ++ [(k, v)]

/-- Look a header up by key. -/
def getHeader (hs : Headers) (k : String) : Option String :=
  (hs.find? (fun p => p.1 == k)).map Prod.snd

/-- Object spread `{ ...base, ...extra }`: each entry of `extra` overrides
`base` in order. -/
def mergeHeaders (base : Headers) (extra : Headers) : Headers :=
  extra.foldl (fun acc p => setHeader acc p.1 p.2) base

/-- A Zod schema: `safeParse` yields the parsed (possibly coerced) output or
the list of issue messages; `.parse` is the throwing presentation of the same
result. -/
structure Schema where
  safeParse : Json → Except (List String) Json

/-- The JavaScript error values the fetch layer can throw:
`ApiClientError` (message, HTTP status, optional string detail);
a `ZodError` thrown by `schema.parse`; the `SyntaxError` with which
`response.json()` rejects on a non-JSON body; the `TypeError` thrown by
property access on a null error body; and a plain `Error` carrying only a
message.  Messages are JSON values because the source assigns
`errorBody.detail || errorBody.message || ...`, which need not be a string
at runtime. -/
inductive JsError where
  | apiClientError (message : Json) (status : Nat) (detail : Option String) : JsError
  | zodError (issues : List String) : JsError
  | jsonDecodeError : JsError
  | typeError : JsError
  | plainError (message : Json) : JsError
deriving Repr

/-- A raw HTTP response: status code, status text, and the outcome of
`response.json()` (`none` means the body is not valid JSON, so `json()`
rejects). -/
structure Response where
  status : Nat
  statusText : String
  jsonBody : Option Json
deriving Repr

/-- `response.ok`: status in [200, 300). -/
def Response.ok (r : Response) : Bool :=
  decide (200 ≤ r.status) && decide (r.status < 300)

/-- The options record of `fetchApi` with its destructuring defaults
(`skipAuth = false`, `headers = {}`). -/
structure RequestOptions where
  skipAuth : Bool := false
  headers : Headers := []
  params : Option (List (String × Option Prim)) := none
  body : Option Json := none
  schema : Option Schema := none

/-- The outgoing request handed to `fetch`. -/
structure Request where
  url : String
  method : String
  headers : Headers
  body : Option String
deriving Repr

/-- Everything one call of `fetchApi` does: the request it sends, the
`console.error` log it emits, and its returned value (`none` models the
`undefined` returned for 204) or the error it throws. -/
structure FetchOutcome where
  request : Request
  log : List (String × List String)
  result : Except JsError (Option Json)

/-- The headers `fetchApi` builds: the JSON content type, the caller-supplied
headers spread over it, then — unless `skipAuth` — the bearer header when the
credential provider yields a token (`token = none` adds nothing). -/
def fetchHeaders (options : RequestOptions) (token : Option String) : Headers :=
  let requestHeaders := mergeHeaders [("Content-Type", "application/json")] options.headers
  if options.skipAuth then requestHeaders
  else
    match token with
    | some t => setHeader requestHeaders "Authorization" ("Bearer " ++ t)
    | none => requestHeaders

/-- The request `fetchApi` hands to `fetch`: built URL, headers as above, and
`body ? JSON.stringify(body) : undefined`. -/
def fetchRequest (method : String) (path : String) (options : RequestOptions)
    (token : Option String) : Request :=
  { url := buildUrl path options.params
    method := method
    headers := fetchHeaders options token
    body := if truthyOpt options.body then options.body.map Json.stringify else none }

/-- `fetchApi` of `client.ts`.  `token` is what `await getAccessToken()`
yields (the credential provider returns `string | null`; the unset provider
defaults to `null`).  `response` is the raw response the network returns for
the request. -/
def fetchApi (method : String) (path : String) (options : RequestOptions)
    (token : Option String) (response : Response) : FetchOutcome :=
  let req : Request := fetchRequest method path options token
  if response.ok = false then
    let defaultMessage := Json.str ("API Error: " ++ response.statusText)
    match response.jsonBody with
    | none =>
        { request := req, log := []
          result := Except.error (JsError.apiClientError defaultMessage response.status none) }
    | some errorBody =>
        let d := errorBody.getField "detail"
        let m := errorBody.getField "message"
        let errorMessage :=
          if truthyOpt d then d.getD Json.null
          else if truthyOpt m then m.getD Json.null
          else defaultMessage
        let errorDetail : Option String :=
          match d with
          | some (Json.str s) => some s
          | _ => none
        { request := req, log := []
          result := Except.error (JsError.apiClientError errorMessage response.status errorDetail) }
  else if response.status = 204 then
    { request := req, log := [], result := Except.ok none }
  else
    match response.jsonBody with
    | none => { request := req, log := [], result := Except.error JsError.jsonDecodeError }
    | some data =>
        match options.schema with
        | none => { request := req, log := [], result := Except.ok (some data) }
        | some schema =>
            match schema.safeParse data with
            | Except.ok parsed =>
                { request := req, log := [], result := Except.ok (some parsed) }
            | Except.error issues =>
                { request := req
                  log := [("API Response validation failed:", issues)]
                  result := Except.error (JsError.apiClientError
                    (Json.str "Invalid API response format") 500
                    (some ("Validation errors: " ++ String.intercalate ", " issues))) }

/-- The options record of `serverFetch` with its defaults (`method = 'GET'`). -/
structure ServerFetchOptions where
  method : String := "GET"
  body : Option Json := none
  params : Option (List (String × Option Prim)) := none

/-- Everything one call of `serverFetch` does: the request it sends and its
returned value or thrown error. -/
structure ServerFetchOutcome where
  request : Request
  result : Except JsError (Option Json)

/-- The token `serverFetch` ends up with: the provider's answer, or `null`
when the `try/catch` swallowed a throw (Auth0 not configured). -/
def serverToken (tokenResult : Except Unit (Option String)) : Option String :=
  match tokenResult with
  | Except.ok t => t
  | Except.error _ => none

/-- The request `serverFetch` hands to `fetch`: the Authorization header is
unconditional, built by the template literal `Bearer ${token}` — which
renders the literal text `null` when the token is absent. -/
def serverRequest (path : String) (options : ServerFetchOptions)
    (tokenResult : Except Unit (Option String)) : Request :=
  let tokenText : String :=
    match serverToken tokenResult with
    | some t => t
    | none => "null"
  { url := API_BASE_URL ++ path ++ renderQuery (queryPairs ((options.params).getD []))
    method := options.method
    headers := [("Content-Type", "application/json"),
                ("Authorization", "Bearer " ++ tokenText)]
    body := if truthyOpt options.body then options.body.map Json.stringify else none }

/-- `serverFetch` of `server.ts`.  `tokenResult` is the outcome of
`await getAccessToken()` from the Auth0 SDK: `Except.error` models the throw
that the surrounding `try/catch` swallows, leaving `token = null`.  On the
non-2xx path the `.catch(() => ({}))` guards only `response.json()`: when
the body decodes to the JSON value `null`, the subsequent property access
`errorBody['detail']` itself throws a TypeError, which nothing catches. -/
def serverFetch (path : String) (options : ServerFetchOptions) (schema : Option Schema)
    (tokenResult : Except Unit (Option String)) (response : Response) : ServerFetchOutcome :=
  let req : Request := serverRequest path options tokenResult
  if response.ok = false then
    let errorBody := (response.jsonBody).getD (Json.obj [])
    if errorBody.isNull then
      { request := req, result := Except.error JsError.typeError }
    else
      let d := errorBody.getField "detail"
      let m := errorBody.getField "message"
      let msg :=
        if nullish d = false then d.getD Json.null
        else if nullish m = false then m.getD Json.null
        else Json.str ("API Error: " ++ toString response.status)
      { request := req, result := Except.error (JsError.plainError msg) }
  else if response.status = 204 then
    { request := req, result := Except.ok none }
  else
    match response.jsonBody with
    | none => { request := req, result := Except.error JsError.jsonDecodeError }
    | some data =>
        match schema with
        | none => { request := req, result := Except.ok (some data) }
        | some s =>
            match s.safeParse data with
            | Except.ok parsed => { request := req, result := Except.ok (some parsed) }
            | Except.error issues => { request := req, result := Except.error (JsError.zodError issues) }

/-- Whether a call outcome is a thrown `ApiClientError` (the spec's Typed API
Error). -/
def isApiClientError : Except JsError (Option Json) → Bool
  | Except.error (JsError.apiClientError _ _ _) => true
  | _ => false

/-! ### Helper lemmas about headers, query building and the two calls -/

theorem find?_key_filter_ne (hs : Headers) (k q : String) (h : q ≠ k) :
    (hs.filter (fun p => p.1 != k)).find? (fun p => p.1 == q) =
      hs.find? (fun p => p.1 == q) := by
  induction hs with
  | nil => rfl
  | cons x xs ih =>
      by_cases hx : x.1 = k
      · have hxk : ((x.1 != k) = true) → False := by simp [hx]
        have hxq : ((x.1 == q) = true) → False := by
          rw [hx]
          simpa using Ne.symm h
        rw [List.filter_cons_of_neg (p := fun (p : String × String) => p.1 != k) hxk,
          List.find?_cons_of_neg (p := fun (p : String × String) => p.1 == q) _ hxq, ih]
      · have hxk : (x.1 != k) = true := by simpa using hx
        by_cases hq : x.1 = q
        · have hxq : (x.1 == q) = true := by simpa using hq
          rw [List.filter_cons_of_pos (p := fun (p : String × String) => p.1 != k) hxk,
            List.find?_cons_of_pos (p := fun (p : String × String) => p.1 == q) _ hxq,
            List.find?_cons_of_pos (p := fun (p : String × String) => p.1 == q) _ hxq]
        · have hxq : ((x.1 == q) = true) → False := by simpa using hq
          rw [List.filter_cons_of_pos (p := fun (p : String × String) => p.1 != k) hxk,
            List.find?_cons_of_neg (p := fun (p : String × String) => p.1 == q) _ hxq,
            List.find?_cons_of_neg (p := fun (p : String × String) => p.1 == q) _ hxq, ih]

theorem getHeader_setHeader (hs : Headers) (k v q : String) :
    getHeader (setHeader hs k v) q = if q = k then some v else getHeader hs q := by
  unfold getHeader setHeader
  rw [List.find?_append]
  by_cases h : q = k
  · subst h
    have hnone : (hs.filter (fun p => p.1 != q)).find? (fun p => p.1 == q) = none := by
      rw [List.find?_eq_none]
      intro x hx
      rcases List.mem_filter.1 hx with ⟨-, hne⟩
      simpa using hne
    simp [hnone, List.find?]
  · rw [find?_key_filter_ne hs k q h]
    have hkq : (k == q) = false := by
      simp only [beq_eq_false_iff_ne]
      exact fun e => h e.symm
    cases hfind : hs.find? (fun p => p.1 == q) with
    | none => simp [List.find?, hkq, h]
    | some x => simp [List.find?, hkq, h, hfind]

theorem getHeader_mergeHeaders_of_not_mem (base extra : Headers) (k : String)
    (h : ∀ p ∈ extra, p.1 ≠ k) :
    getHeader (mergeHeaders base extra) k = getHeader base k := by
  induction extra generalizing base with
  | nil => rfl
  | cons p ps ih =>
      have hp : p.1 ≠ k := h p (by simp)
      have step : mergeHeaders base (p :: ps) = mergeHeaders (setHeader base p.1 p.2) ps := rfl
      rw [step, ih (setHeader base p.1 p.2) (fun q hq => h q (List.mem_cons_of_mem p hq)),
        getHeader_setHeader, if_neg (fun e => hp (Eq.symm e))]

theorem fetchApi_request (method path : String) (options : RequestOptions)
    (token : Option String) (response : Response) :
    (fetchApi method path options token response).request =
      fetchRequest method path options token := by
  unfold fetchApi
  repeat' split
  all_goals rfl

theorem fetchApi_result_token_irrel (method path : String) (options : RequestOptions)
    (t₁ t₂ : Option String) (response : Response) :
    (fetchApi method path options t₁ response).result =
      (fetchApi method path options t₂ response).result := by
  unfold fetchApi
  repeat' split
  all_goals rfl

theorem serverFetch_request (path : String) (options : ServerFetchOptions)
    (schema : Option Schema) (tokenResult : Except Unit (Option String))
    (response : Response) :
    (serverFetch path options schema tokenResult response).request =
      serverRequest path options tokenResult := by
  unfold serverFetch
  simp only []
  repeat' split
  all_goals rfl

theorem serverFetch_result_token_irrel (path : String) (options : ServerFetchOptions)
    (schema : Option Schema) (t₁ t₂ : Except Unit (Option String)) (response : Response) :
    (serverFetch path options schema t₁ response).result =
      (serverFetch path options schema t₂ response).result := by
  unfold serverFetch
  simp only []
  repeat' split
  all_goals rfl

theorem queryPairs_filter_defined (params : List (String × Option Prim)) :
    queryPairs (params.filter (fun p => p.2.isSome)) = queryPairs params := by
  induction params with
  | nil => rfl
  | cons p ps ih =>
      cases hv : p.2 with
      | none => simp [queryPairs, List.filter_cons, hv, List.filterMap_cons] at ih ⊢; exact ih
      | some v => simp [queryPairs, List.filter_cons, hv, List.filterMap_cons] at ih ⊢; exact ih

theorem mem_queryPairs_of_mem (params : List (String × Option Prim)) (k : String) (v : Prim)
    (h : (k, some v) ∈ params) : (k, Prim.toStr v) ∈ queryPairs params := by
  rw [queryPairs, List.mem_filterMap]
  exact ⟨(k, some v), h, rfl⟩

theorem fetchApi_result_ok_some (method path : String) (options : RequestOptions)
    (token : Option String) (response : Response) (v : Json)
    (h : (fetchApi method path options token response).result = Except.ok (some v)) :
    ∃ data, response.jsonBody = some data ∧
      ((options.schema = none ∧ v = data) ∨
        ∃ s, options.schema = some s ∧ s.safeParse data = Except.ok v) := by
  unfold fetchApi at h
  split at h
  · split at h <;> simp at h
  · split at h
    · simp at h
    · split at h
      · simp at h
      · rename_i data hdata
        split at h
        · rename_i hnone
          simp at h
          exact ⟨data, hdata, Or.inl ⟨hnone, h.symm⟩⟩
        · rename_i s hs
          split at h
          · rename_i parsed hparse
            simp at h
            exact ⟨data, hdata, Or.inr ⟨s, hs, by rw [hparse, h]⟩⟩
          · simp at h

theorem serverFetch_result_ok_some (path : String) (options : ServerFetchOptions)
    (schema : Option Schema) (tokenResult : Except Unit (Option String))
    (response : Response) (v : Json)
    (h : (serverFetch path options schema tokenResult response).result = Except.ok (some v)) :
    ∃ data, response.jsonBody = some data ∧
      ((schema = none ∧ v = data) ∨
        ∃ s, schema = some s ∧ s.safeParse data = Except.ok v) := by
  unfold serverFetch at h
  simp only [] at h
  split at h
  · split at h <;> simp at h
  · split at h
    · simp at h
    · split at h
      · simp at h
      · rename_i data hdata
        split at h
        · simp at h
          exact ⟨data, hdata, Or.inl ⟨rfl, h.symm⟩⟩
        · rename_i s
          split at h
          · rename_i parsed hparse
            simp at h
            exact ⟨data, hdata, Or.inr ⟨s, rfl, by rw [hparse, h]⟩⟩
          · simp at h

theorem fetchApi_result_ok_none (method path : String) (options : RequestOptions)
    (token : Option String) (response : Response)
    (h : (fetchApi method path options token response).result = Except.ok none) :
    response.status = 204 := by
  unfold fetchApi at h
  split at h
  · split at h <;> simp at h
  · split at h
    · rename_i h204
      exact h204
    · split at h
      · simp at h
      · split at h
        · simp at h
        · split at h <;> simp at h

theorem serverFetch_result_ok_none (path : String) (options : ServerFetchOptions)
    (schema : Option Schema) (tokenResult : Except Unit (Option String))
    (response : Response)
    (h : (serverFetch path options schema tokenResult response).result = Except.ok none) :
    response.status = 204 := by
  unfold serverFetch at h
  simp only [] at h
  split at h
  · split at h <;> simp at h
  · split at h
    · rename_i h204
      exact h204
    · split at h
      · simp at h
      · split at h
        · simp at h
        · split at h <;> simp at h

/-! ### Claims -/

/-- C5: a response with HTTP status 204 makes both `fetchApi` and
`serverFetch` return the empty (`undefined`) result immediately, skipping
schema validation even when a schema is declared, and the body is never
decoded or inspected: the whole outcome is unchanged when the body is
replaced by any other body. -/
theorem status204_empty_result_body_uninspected
    (method path : String) (options : RequestOptions) (token : Option String)
    (sopts : ServerFetchOptions) (schema : Option Schema)
    (tokenResult : Except Unit (Option String))
    (stext : String) (b₁ b₂ : Option Json) :
    (fetchApi method path options token ⟨204, stext, b₁⟩).result = Except.ok none ∧
    (serverFetch path sopts schema tokenResult ⟨204, stext, b₁⟩).result = Except.ok none ∧
    fetchApi method path options token ⟨204, stext, b₁⟩ =
      fetchApi method path options token ⟨204, stext, b₂⟩ ∧
    serverFetch path sopts schema tokenResult ⟨204, stext, b₁⟩ =
      serverFetch path sopts schema tokenResult ⟨204, stext, b₂⟩ :=
  ⟨rfl, rfl, rfl, rfl⟩

/-- C10: on a success-status (2xx, non-204) response whose body is not valid
JSON, both `fetchApi` and `serverFetch` let the raw decode failure propagate:
the thrown error is the `response.json()` rejection itself, a constructor
distinct from `ApiClientError`, so the failure is never converted into a
Typed API Error on this path. -/
theorem success_nonjson_body_decode_failure_propagates
    (method path : String) (options : RequestOptions) (token : Option String)
    (sopts : ServerFetchOptions) (schema : Option Schema)
    (tokenResult : Except Unit (Option String)) (response : Response)
    (hok : response.ok = true) (h204 : response.status ≠ 204)
    (hbody : response.jsonBody = none) :
    (fetchApi method path options token response).result =
      Except.error JsError.jsonDecodeError ∧
    (serverFetch path sopts schema tokenResult response).result =
      Except.error JsError.jsonDecodeError ∧
    (∀ m s d, JsError.jsonDecodeError ≠ JsError.apiClientError m s d) := by
  refine ⟨?_, ?_, fun m s d h => JsError.noConfusion h⟩ <;>
    simp [fetchApi, serverFetch, hok, h204, hbody]

/-- C10 witness: a 200 response with a non-JSON body, evaluated concretely. -/
theorem success_nonjson_body_decode_failure_propagates_witness :
    (fetchApi "GET" "/api/v1/clients" {} none ⟨200, "OK", none⟩).result =
      Except.error JsError.jsonDecodeError ∧
    (serverFetch "/api/v1/clients" {} none (Except.ok none) ⟨200, "OK", none⟩).result =
      Except.error JsError.jsonDecodeError ∧
    (∀ m s d, JsError.jsonDecodeError ≠ JsError.apiClientError m s d) :=
  success_nonjson_body_decode_failure_propagates "GET" "/api/v1/clients" {} none {} none
    (Except.ok none) ⟨200, "OK", none⟩ rfl (by decide) rfl

/-- C6: in the URL construction shared by `buildUrl` and `serverFetch`,
entries whose value is undefined are excluded entirely (dropping them changes
nothing), the URL is the base, the path and the rendered query of the
accumulated pairs, and every defined entry appears among the rendered
URL-encoded `key=value` pairs. -/
theorem query_params_undefined_excluded_defined_encoded
    (path : String) (params : List (String × Option Prim)) (k : String) (v : Prim)
    (sopts : ServerFetchOptions) (schema : Option Schema)
    (tokenResult : Except Unit (Option String)) (response : Response)
    (hmem : (k, some v) ∈ params) (hsp : sopts.params = some params) :
    buildUrl path (some params) =
      buildUrl path (some (params.filter (fun p => p.2.isSome))) ∧
    buildUrl path (some params) = API_BASE_URL ++ path ++ renderQuery (queryPairs params) ∧
    (urlEncode k ++ "=" ++ urlEncode (Prim.toStr v)) ∈
      (queryPairs params).map (fun p => urlEncode p.1 ++ "=" ++ urlEncode p.2) ∧
    (serverFetch path sopts schema tokenResult response).request.url =
      API_BASE_URL ++ path ++ renderQuery (queryPairs params) := by
  refine ⟨?_, rfl, ?_, ?_⟩
  · unfold buildUrl
    rw [Option.getD_some, Option.getD_some, queryPairs_filter_defined]
  · exact List.mem_map.mpr ⟨(k, Prim.toStr v), mem_queryPairs_of_mem params k v hmem, rfl⟩
  · rw [serverFetch_request]
    unfold serverRequest
    rw [hsp]
    rfl

/-- C6 witness: a parameter list with one defined and one undefined entry,
evaluated concretely. -/
theorem query_params_undefined_excluded_defined_encoded_witness :
    buildUrl "/api/v1/clients" (some [("page", some (Prim.num 1)), ("search", none)]) =
      buildUrl "/api/v1/clients"
        (some ([("page", some (Prim.num 1)), ("search", none)].filter (fun p => p.2.isSome))) ∧
    buildUrl "/api/v1/clients" (some [("page", some (Prim.num 1)), ("search", none)]) =
      API_BASE_URL ++ "/api/v1/clients" ++
        renderQuery (queryPairs [("page", some (Prim.num 1)), ("search", none)]) ∧
    (urlEncode "page" ++ "=" ++ urlEncode (Prim.toStr (Prim.num 1))) ∈
      (queryPairs [("page", some (Prim.num 1)), ("search", none)]).map
        (fun p => urlEncode p.1 ++ "=" ++ urlEncode p.2) ∧
    (serverFetch "/api/v1/clients"
        { params := some [("page", some (Prim.num 1)), ("search", none)] } none
        (Except.ok none) ⟨200, "OK", some Json.null⟩).request.url =
      API_BASE_URL ++ "/api/v1/clients" ++
        renderQuery (queryPairs [("page", some (Prim.num 1)), ("search", none)]) :=
  query_params_undefined_excluded_defined_encoded "/api/v1/clients"
    [("page", some (Prim.num 1)), ("search", none)] "page" (Prim.num 1)
    { params := some [("page", some (Prim.num 1)), ("search", none)] } none
    (Except.ok none) ⟨200, "OK", some Json.null⟩ (by simp) rfl

/-- C7: with `skipAuth = true`, `fetchApi` attaches no Authorization header to
the outgoing request, whatever the credential provider yields (the statement
quantifies over every `token`, covering the unset provider, a provider
yielding null, and a provider yielding a token), as long as the caller did
not supply an Authorization header of their own. -/
theorem skipAuth_no_authorization_header
    (method path : String) (options : RequestOptions) (token : Option String)
    (response : Response)
    (hskip : options.skipAuth = true)
    (hcustom : ∀ p ∈ options.headers, p.1 ≠ "Authorization") :
    getHeader (fetchApi method path options token response).request.headers
      "Authorization" = none := by
  rw [fetchApi_request]
  unfold fetchRequest fetchHeaders
  simp only [hskip, if_true]
  rw [getHeader_mergeHeaders_of_not_mem _ _ _ hcustom]
  rfl

/-- C7 witness: a skip-auth request with one custom header and a provider
yielding a token, evaluated concretely. -/
theorem skipAuth_no_authorization_header_witness :
    getHeader (fetchApi "GET" "/api/v1/health"
      { skipAuth := true, headers := [("X-Trace-Id", "abc")] }
      (some "secret-token") ⟨200, "OK", some Json.null⟩).request.headers
      "Authorization" = none :=
  skipAuth_no_authorization_header "GET" "/api/v1/health"
    { skipAuth := true, headers := [("X-Trace-Id", "abc")] }
    (some "secret-token") ⟨200, "OK", some Json.null⟩ rfl (by decide)

/-- C1 counterexample: on a 200 response whose body fails the declared
schema, `serverFetch` does not raise a Typed API Error of the 500
contract-violation class — the schema's raw ZodError escapes instead. -/
theorem schema_failure_server_not_contract_violation_counterexample :
    (serverFetch "/api/v1/users/me" {} (some ⟨fun _ => Except.error ["Required"]⟩)
        (Except.ok (some "token123")) ⟨200, "OK", some (Json.obj [])⟩).result =
      Except.error (JsError.zodError ["Required"]) ∧
    isApiClientError
      (serverFetch "/api/v1/users/me" {} (some ⟨fun _ => Except.error ["Required"]⟩)
        (Except.ok (some "token123")) ⟨200, "OK", some (Json.obj [])⟩).result = false :=
  ⟨rfl, rfl⟩

/-- C1 amended: on a 2xx (non-204) response whose decoded body fails the
declared schema, the client-side `fetchApi` raises an `ApiClientError` with
status 500 (not the original 2xx) and a detail summarizing the failed
validations, and records the structured validation failure in the log before
raising; the server-side `serverFetch` instead lets the schema's raw ZodError
propagate — no Typed API Error, no 500 status, no log. -/
theorem schema_failure_contract_violation_amended
    (method path : String) (options : RequestOptions) (token : Option String)
    (sopts : ServerFetchOptions) (tokenResult : Except Unit (Option String))
    (response : Response) (s : Schema) (data : Json) (issues : List String)
    (hok : response.ok = true) (h204 : response.status ≠ 204)
    (hbody : response.jsonBody = some data)
    (hschema : options.schema = some s)
    (hfail : s.safeParse data = Except.error issues) :
    (fetchApi method path options token response).result =
      Except.error (JsError.apiClientError (Json.str "Invalid API response format") 500
        (some ("Validation errors: " ++ String.intercalate ", " issues))) ∧
    (fetchApi method path options token response).log =
      [("API Response validation failed:", issues)] ∧
    (serverFetch path sopts (some s) tokenResult response).result =
      Except.error (JsError.zodError issues) := by
  refine ⟨?_, ?_, ?_⟩ <;>
    simp [fetchApi, serverFetch, hok, h204, hbody, hschema, hfail]

/-- C1 amended witness: a 200 response failing a concrete schema, evaluated
concretely on both calls. -/
theorem schema_failure_contract_violation_amended_witness :
    (fetchApi "GET" "/api/v1/clients"
        { schema := some ⟨fun _ => Except.error ["Expected string", "Required"]⟩ } none
        ⟨200, "OK", some (Json.obj [])⟩).result =
      Except.error (JsError.apiClientError (Json.str "Invalid API response format") 500
        (some ("Validation errors: " ++
          String.intercalate ", " ["Expected string", "Required"]))) ∧
    (fetchApi "GET" "/api/v1/clients"
        { schema := some ⟨fun _ => Except.error ["Expected string", "Required"]⟩ } none
        ⟨200, "OK", some (Json.obj [])⟩).log =
      [("API Response validation failed:", ["Expected string", "Required"])] ∧
    (serverFetch "/api/v1/clients" {}
        (some ⟨fun _ => Except.error ["Expected string", "Required"]⟩)
        (Except.ok none) ⟨200, "OK", some (Json.obj [])⟩).result =
      Except.error (JsError.zodError ["Expected string", "Required"]) :=
  schema_failure_contract_violation_amended "GET" "/api/v1/clients"
    { schema := some ⟨fun _ => Except.error ["Expected string", "Required"]⟩ } none {}
    (Except.ok none) ⟨200, "OK", some (Json.obj [])⟩
    ⟨fun _ => Except.error ["Expected string", "Required"]⟩ (Json.obj [])
    ["Expected string", "Required"] rfl (by decide) rfl rfl rfl

/-- C2 counterexample: with a declared schema rejecting the 200 body,
`serverFetch` neither returns the schema's output nor raises a Typed API
Error — the raw ZodError escapes. -/
theorem schema_declared_server_error_untyped_counterexample :
    (serverFetch "/api/v1/metrics" {} (some ⟨fun _ => Except.error ["Expected number"]⟩)
        (Except.ok none) ⟨200, "OK", some (Json.obj [("total", Json.str "5")])⟩).result =
      Except.error (JsError.zodError ["Expected number"]) ∧
    isApiClientError
      (serverFetch "/api/v1/metrics" {} (some ⟨fun _ => Except.error ["Expected number"]⟩)
        (Except.ok none) ⟨200, "OK", some (Json.obj [("total", Json.str "5")])⟩).result =
      false :=
  ⟨rfl, rfl⟩

/-- C2 amended: when a schema is declared, any data either call returns is
the schema's own parsed/coerced output on the decoded body — never the raw
pre-validation value, never data that failed validation; an empty result is
returned only for a 204 response; every remaining outcome is a raised error
(for a schema failure a Typed API Error in `fetchApi` but the schema's raw
ZodError in `serverFetch`). -/
theorem schema_declared_validated_output_or_error
    (method path : String) (options : RequestOptions) (token : Option String)
    (sopts : ServerFetchOptions) (tokenResult : Except Unit (Option String))
    (response : Response) (s : Schema) (v : Json)
    (hschema : options.schema = some s) :
    ((fetchApi method path options token response).result = Except.ok (some v) →
      ∃ data, response.jsonBody = some data ∧ s.safeParse data = Except.ok v) ∧
    ((serverFetch path sopts (some s) tokenResult response).result = Except.ok (some v) →
      ∃ data, response.jsonBody = some data ∧ s.safeParse data = Except.ok v) ∧
    ((fetchApi method path options token response).result = Except.ok none →
      response.status = 204) ∧
    ((serverFetch path sopts (some s) tokenResult response).result = Except.ok none →
      response.status = 204) ∧
    ((∃ w, (fetchApi method path options token response).result = Except.ok (some w)) ∨
      (fetchApi method path options token response).result = Except.ok none ∨
      ∃ e, (fetchApi method path options token response).result = Except.error e) ∧
    ((∃ w, (serverFetch path sopts (some s) tokenResult response).result =
        Except.ok (some w)) ∨
      (serverFetch path sopts (some s) tokenResult response).result = Except.ok none ∨
      ∃ e, (serverFetch path sopts (some s) tokenResult response).result =
        Except.error e) := by
  refine ⟨?_, ?_, fetchApi_result_ok_none method path options token response,
    serverFetch_result_ok_none path sopts (some s) tokenResult response, ?_, ?_⟩
  · intro h
    obtain ⟨data, hdata, hcase⟩ := fetchApi_result_ok_some method path options token response v h
    rcases hcase with ⟨hnone, -⟩ | ⟨s', hs', hparse⟩
    · rw [hschema] at hnone
      exact absurd hnone (by simp)
    · rw [hschema] at hs'
      cases Option.some.inj hs'
      exact ⟨data, hdata, hparse⟩
  · intro h
    obtain ⟨data, hdata, hcase⟩ :=
      serverFetch_result_ok_some path sopts (some s) tokenResult response v h
    rcases hcase with ⟨hnone, -⟩ | ⟨s', hs', hparse⟩
    · exact absurd hnone (by simp)
    · cases Option.some.inj hs'
      exact ⟨data, hdata, hparse⟩
  · cases hres : (fetchApi method path options token response).result with
    | ok o =>
        cases o with
        | none => exact Or.inr (Or.inl rfl)
        | some w => exact Or.inl ⟨w, rfl⟩
    | error e => exact Or.inr (Or.inr ⟨e, rfl⟩)
  · cases hres : (serverFetch path sopts (some s) tokenResult response).result with
    | ok o =>
        cases o with
        | none => exact Or.inr (Or.inl rfl)
        | some w => exact Or.inl ⟨w, rfl⟩
    | error e => exact Or.inr (Or.inr ⟨e, rfl⟩)

/-- C2 amended witness: a coercing schema (numeric string to number) on a 200
response, applied concretely: any returned value must be the schema's own
parse result on the decoded body, an empty result would force status 204,
and the outcome is a returned value, an empty result, or a raised error. -/
theorem schema_declared_validated_output_or_error_witness :
    ((fetchApi "GET" "/api/v1/metrics/summary/1"
        { schema := some ⟨fun _ => Except.ok (Json.num 5)⟩ } none
        ⟨200, "OK", some (Json.str "5")⟩).result = Except.ok (some (Json.num 5)) →
      ∃ data, (⟨200, "OK", some (Json.str "5")⟩ : Response).jsonBody = some data ∧
        (⟨fun _ => Except.ok (Json.num 5)⟩ : Schema).safeParse data =
          Except.ok (Json.num 5)) ∧
    ((serverFetch "/api/v1/metrics/summary/1" {}
        (some ⟨fun _ => Except.ok (Json.num 5)⟩) (Except.ok none)
        ⟨200, "OK", some (Json.str "5")⟩).result = Except.ok (some (Json.num 5)) →
      ∃ data, (⟨200, "OK", some (Json.str "5")⟩ : Response).jsonBody = some data ∧
        (⟨fun _ => Except.ok (Json.num 5)⟩ : Schema).safeParse data =
          Except.ok (Json.num 5)) ∧
    ((fetchApi "GET" "/api/v1/metrics/summary/1"
        { schema := some ⟨fun _ => Except.ok (Json.num 5)⟩ } none
        ⟨200, "OK", some (Json.str "5")⟩).result = Except.ok none →
      (⟨200, "OK", some (Json.str "5")⟩ : Response).status = 204) ∧
    ((serverFetch "/api/v1/metrics/summary/1" {}
        (some ⟨fun _ => Except.ok (Json.num 5)⟩) (Except.ok none)
        ⟨200, "OK", some (Json.str "5")⟩).result = Except.ok none →
      (⟨200, "OK", some (Json.str "5")⟩ : Response).status = 204) ∧
    ((∃ w, (fetchApi "GET" "/api/v1/metrics/summary/1"
        { schema := some ⟨fun _ => Except.ok (Json.num 5)⟩ } none
        ⟨200, "OK", some (Json.str "5")⟩).result = Except.ok (some w)) ∨
      (fetchApi "GET" "/api/v1/metrics/summary/1"
        { schema := some ⟨fun _ => Except.ok (Json.num 5)⟩ } none
        ⟨200, "OK", some (Json.str "5")⟩).result = Except.ok none ∨
      ∃ e, (fetchApi "GET" "/api/v1/metrics/summary/1"
        { schema := some ⟨fun _ => Except.ok (Json.num 5)⟩ } none
        ⟨200, "OK", some (Json.str "5")⟩).result = Except.error e) ∧
    ((∃ w, (serverFetch "/api/v1/metrics/summary/1" {}
        (some ⟨fun _ => Except.ok (Json.num 5)⟩) (Except.ok none)
        ⟨200, "OK", some (Json.str "5")⟩).result = Except.ok (some w)) ∨
      (serverFetch "/api/v1/metrics/summary/1" {}
        (some ⟨fun _ => Except.ok (Json.num 5)⟩) (Except.ok none)
        ⟨200, "OK", some (Json.str "5")⟩).result = Except.ok none ∨
      ∃ e, (serverFetch "/api/v1/metrics/summary/1" {}
        (some ⟨fun _ => Except.ok (Json.num 5)⟩) (Except.ok none)
        ⟨200, "OK", some (Json.str "5")⟩).result = Except.error e) :=
  schema_declared_validated_output_or_error "GET" "/api/v1/metrics/summary/1"
    { schema := some ⟨fun _ => Except.ok (Json.num 5)⟩ } none {} (Except.ok none)
    ⟨200, "OK", some (Json.str "5")⟩ ⟨fun _ => Except.ok (Json.num 5)⟩ (Json.num 5) rfl

/-- C3 counterexample: on a 404 with a JSON `detail` body, `serverFetch`
throws a plain `Error` carrying only a message — not a Typed API Error with
the HTTP status code and detail. -/
theorem non2xx_server_plain_untyped_error_counterexample :
    (serverFetch "/api/v1/clients/7" {} none (Except.ok (some "tok"))
        ⟨404, "Not Found", some (Json.obj [("detail", Json.str "Client not found")])⟩).result =
      Except.error (JsError.plainError (Json.str "Client not found")) ∧
    isApiClientError
      (serverFetch "/api/v1/clients/7" {} none (Except.ok (some "tok"))
        ⟨404, "Not Found",
          some (Json.obj [("detail", Json.str "Client not found")])⟩).result = false :=
  ⟨rfl, rfl⟩

/-- C3 amended: on every non-2xx response neither call returns data;
`fetchApi` raises an `ApiClientError` carrying the HTTP status code, a
detail when the body's detail is a string, and a message chosen by
truthiness in the order detail field, message field, raw HTTP status text
(for a JSON-null error body the property access throws inside the
try/catch, so the status-text fallback is used with no detail);
`serverFetch` instead throws a plain `Error` carrying only a message, chosen
by nullish-ness in the order detail field, message field, then a fallback
built from the numeric status code (not the status text) — except that a
JSON-null error body makes the `errorBody['detail']` access itself throw an
uncaught TypeError, the `.catch` guarding only `response.json()`. -/
theorem non2xx_error_raising_amended
    (method path : String) (options : RequestOptions) (token : Option String)
    (sopts : ServerFetchOptions) (schema : Option Schema)
    (tokenResult : Except Unit (Option String))
    (response response₂ response₃ : Response) (body : Json)
    (hok : response.ok = false) (hbody : response.jsonBody = some body)
    (hnotnull : body.isNull = false)
    (hok₂ : response₂.ok = false) (hbody₂ : response₂.jsonBody = none)
    (hok₃ : response₃.ok = false) (hbody₃ : response₃.jsonBody = some Json.null) :
    (fetchApi method path options token response).result =
      Except.error (JsError.apiClientError
        (if truthyOpt (body.getField "detail") then (body.getField "detail").getD Json.null
         else if truthyOpt (body.getField "message") then
           (body.getField "message").getD Json.null
         else Json.str ("API Error: " ++ response.statusText))
        response.status
        (match body.getField "detail" with
         | some (Json.str s) => some s
         | _ => none)) ∧
    (serverFetch path sopts schema tokenResult response).result =
      Except.error (JsError.plainError
        (if nullish (body.getField "detail") = false then
           (body.getField "detail").getD Json.null
         else if nullish (body.getField "message") = false then
           (body.getField "message").getD Json.null
         else Json.str ("API Error: " ++ toString response.status))) ∧
    (fetchApi method path options token response₂).result =
      Except.error (JsError.apiClientError
        (Json.str ("API Error: " ++ response₂.statusText)) response₂.status none) ∧
    (serverFetch path sopts schema tokenResult response₂).result =
      Except.error (JsError.plainError
        (Json.str ("API Error: " ++ toString response₂.status))) ∧
    (fetchApi method path options token response₃).result =
      Except.error (JsError.apiClientError
        (Json.str ("API Error: " ++ response₃.statusText)) response₃.status none) ∧
    (serverFetch path sopts schema tokenResult response₃).result =
      Except.error JsError.typeError := by
  refine ⟨?_, ?_, ?_, ?_, ?_, ?_⟩
  · simp [fetchApi, hok, hbody]
  · simp [serverFetch, hok, hbody, hnotnull]
  · simp [fetchApi, hok₂, hbody₂]
  · simp [serverFetch, hok₂, hbody₂, Json.getField, nullish, Json.isNull]
  · simp [fetchApi, hok₃, hbody₃, Json.getField, truthyOpt]
  · simp [serverFetch, hok₃, hbody₃, Json.isNull]

/-- C3 amended witness: a 404 with a `detail` body, a 500 with a non-JSON
body, and a 502 whose body is the JSON value `null`, evaluated concretely on
both calls. -/
theorem non2xx_error_raising_amended_witness :
    (fetchApi "GET" "/api/v1/clients/7" {} none
        ⟨404, "Not Found", some (Json.obj [("detail", Json.str "Client not found")])⟩).result =
      Except.error (JsError.apiClientError (Json.str "Client not found") 404
        (some "Client not found")) ∧
    (serverFetch "/api/v1/clients/7" {} none (Except.ok none)
        ⟨404, "Not Found", some (Json.obj [("detail", Json.str "Client not found")])⟩).result =
      Except.error (JsError.plainError (Json.str "Client not found")) ∧
    (fetchApi "GET" "/api/v1/clients/7" {} none
        ⟨500, "Internal Server Error", none⟩).result =
      Except.error (JsError.apiClientError (Json.str "API Error: Internal Server Error")
        500 none) ∧
    (serverFetch "/api/v1/clients/7" {} none (Except.ok none)
        ⟨500, "Internal Server Error", none⟩).result =
      Except.error (JsError.plainError (Json.str "API Error: 500")) ∧
    (fetchApi "GET" "/api/v1/clients/7" {} none
        ⟨502, "Bad Gateway", some Json.null⟩).result =
      Except.error (JsError.apiClientError (Json.str "API Error: Bad Gateway") 502 none) ∧
    (serverFetch "/api/v1/clients/7" {} none (Except.ok none)
        ⟨502, "Bad Gateway", some Json.null⟩).result =
      Except.error JsError.typeError :=
  non2xx_error_raising_amended "GET" "/api/v1/clients/7" {} none {} none (Except.ok none)
    ⟨404, "Not Found", some (Json.obj [("detail", Json.str "Client not found")])⟩
    ⟨500, "Internal Server Error", none⟩
    ⟨502, "Bad Gateway", some Json.null⟩
    (Json.obj [("detail", Json.str "Client not found")]) rfl rfl rfl rfl rfl rfl rfl

/-- C4 counterexample: with skip-auth false and a credential provider
yielding no token, `serverFetch` still attaches an Authorization header — its
value is the literal `Bearer null` — contradicting the claim that no
Authorization header is attached in both variants. -/
theorem missing_token_bearer_null_counterexample :
    getHeader (serverFetch "/api/v1/users/me" {} none (Except.ok none)
        ⟨200, "OK", some Json.null⟩).request.headers "Authorization" =
      some "Bearer null" :=
  rfl

/-- C4 amended: with skip-auth false and no token, both calls still execute
and raise no error for the missing token (the result is independent of the
credential outcome); `fetchApi` attaches no Authorization header, but
`serverFetch` always attaches one, whose value is the literal `Bearer null`
when the provider yields no token. -/
theorem missing_token_request_proceeds_amended
    (method path : String) (options : RequestOptions) (token : Option String)
    (sopts : ServerFetchOptions) (schema : Option Schema)
    (tokenResult tokenResult₂ : Except Unit (Option String)) (response : Response)
    (hskip : options.skipAuth = false)
    (hcustom : ∀ p ∈ options.headers, p.1 ≠ "Authorization")
    (hserver : serverToken tokenResult = none) :
    getHeader (fetchApi method path options none response).request.headers
      "Authorization" = none ∧
    (fetchApi method path options none response).result =
      (fetchApi method path options token response).result ∧
    getHeader (serverFetch path sopts schema tokenResult response).request.headers
      "Authorization" = some "Bearer null" ∧
    (serverFetch path sopts schema tokenResult response).result =
      (serverFetch path sopts schema tokenResult₂ response).result := by
  refine ⟨?_, fetchApi_result_token_irrel method path options none token response, ?_,
    serverFetch_result_token_irrel path sopts schema tokenResult tokenResult₂ response⟩
  · have hh : fetchHeaders options none =
        mergeHeaders [("Content-Type", "application/json")] options.headers := by
      unfold fetchHeaders
      rw [hskip]
      exact rfl
    rw [fetchApi_request]
    show getHeader (fetchHeaders options none) "Authorization" = none
    rw [hh, getHeader_mergeHeaders_of_not_mem _ _ _ hcustom]
    rfl
  · rw [serverFetch_request]
    show getHeader (serverRequest path sopts tokenResult).headers "Authorization" =
      some "Bearer null"
    unfold serverRequest
    rw [hserver]
    exact rfl

/-- C4 amended witness: the Auth0 getter throwing (swallowed to a null
token), evaluated concretely on both calls. -/
theorem missing_token_request_proceeds_amended_witness :
    getHeader (fetchApi "GET" "/api/v1/users/me" { headers := [("X-Trace-Id", "abc")] }
      none ⟨200, "OK", some Json.null⟩).request.headers "Authorization" = none ∧
    (fetchApi "GET" "/api/v1/users/me" { headers := [("X-Trace-Id", "abc")] }
        none ⟨200, "OK", some Json.null⟩).result =
      (fetchApi "GET" "/api/v1/users/me" { headers := [("X-Trace-Id", "abc")] }
        (some "tok") ⟨200, "OK", some Json.null⟩).result ∧
    getHeader (serverFetch "/api/v1/users/me" {} none (Except.error ())
      ⟨200, "OK", some Json.null⟩).request.headers "Authorization" =
        some "Bearer null" ∧
    (serverFetch "/api/v1/users/me" {} none (Except.error ())
        ⟨200, "OK", some Json.null⟩).result =
      (serverFetch "/api/v1/users/me" {} none (Except.ok (some "tok"))
        ⟨200, "OK", some Json.null⟩).result :=
  missing_token_request_proceeds_amended "GET" "/api/v1/users/me"
    { headers := [("X-Trace-Id", "abc")] } (some "tok") {} none (Except.error ())
    (Except.ok (some "tok")) ⟨200, "OK", some Json.null⟩ rfl (by decide) rfl

/-- C8 counterexample: a present but falsy body (the JSON value `false`) is
omitted from the outgoing request entirely, in both calls — contradicting
the claim that every present body is serialized and sent. -/
theorem falsy_body_omitted_counterexample :
    (fetchApi "POST" "/api/v1/clients" { body := some (Json.bool false) } none
        ⟨200, "OK", some Json.null⟩).request.body = none ∧
    (serverFetch "/api/v1/clients" { method := "POST", body := some (Json.bool false) }
        none (Except.ok none) ⟨200, "OK", some Json.null⟩).request.body = none :=
  ⟨rfl, rfl⟩

/-- C8 amended: a body is serialized to JSON text and sent exactly when it is
present and truthy; the body is omitted entirely both for requests with no
body and for requests whose present body is falsy (`false`, `0`, `""`,
`null`), in both calls. -/
theorem body_serialization_truthiness_amended
    (method path : String) (token : Option String) (response : Response)
    (options options₂ options₃ : RequestOptions)
    (sopts sopts₂ sopts₃ : ServerFetchOptions)
    (schema : Option Schema) (tokenResult : Except Unit (Option String))
    (b c : Json)
    (hb : options.body = some b) (hbt : b.truthy = true) (hsb : sopts.body = some b)
    (h₂ : options₂.body = none) (hs₂ : sopts₂.body = none)
    (hc : options₃.body = some c) (hct : c.truthy = false) (hsc : sopts₃.body = some c) :
    (fetchApi method path options token response).request.body =
      some (Json.stringify b) ∧
    (serverFetch path sopts schema tokenResult response).request.body =
      some (Json.stringify b) ∧
    (fetchApi method path options₂ token response).request.body = none ∧
    (serverFetch path sopts₂ schema tokenResult response).request.body = none ∧
    (fetchApi method path options₃ token response).request.body = none ∧
    (serverFetch path sopts₃ schema tokenResult response).request.body = none := by
  refine ⟨?_, ?_, ?_, ?_, ?_, ?_⟩ <;>
    simp [fetchApi_request, serverFetch_request, fetchRequest, serverRequest,
      truthyOpt, hb, hbt, hsb, h₂, hs₂, hc, hct, hsc]

/-- C8 amended witness: a truthy object body is serialized, an absent body
and the falsy body `false` are omitted, evaluated concretely. -/
theorem body_serialization_truthiness_amended_witness :
    (fetchApi "POST" "/api/v1/clients"
        { body := some (Json.obj [("name", Json.str "Acme Co")]) } none
        ⟨201, "Created", some Json.null⟩).request.body =
      some (Json.stringify (Json.obj [("name", Json.str "Acme Co")])) ∧
    (serverFetch "/api/v1/clients"
        { method := "POST", body := some (Json.obj [("name", Json.str "Acme Co")]) }
        none (Except.ok none) ⟨201, "Created", some Json.null⟩).request.body =
      some (Json.stringify (Json.obj [("name", Json.str "Acme Co")])) ∧
    (fetchApi "GET" "/api/v1/clients" {} none
        ⟨201, "Created", some Json.null⟩).request.body = none ∧
    (serverFetch "/api/v1/clients" {} none (Except.ok none)
        ⟨201, "Created", some Json.null⟩).request.body = none ∧
    (fetchApi "POST" "/api/v1/clients" { body := some (Json.bool false) } none
        ⟨201, "Created", some Json.null⟩).request.body = none ∧
    (serverFetch "/api/v1/clients" { body := some (Json.bool false) } none
        (Except.ok none) ⟨201, "Created", some Json.null⟩).request.body = none :=
  body_serialization_truthiness_amended "POST" "/api/v1/clients" none
    ⟨201, "Created", some Json.null⟩
    { body := some (Json.obj [("name", Json.str "Acme Co")]) } {}
    { body := some (Json.bool false) }
    { method := "POST", body := some (Json.obj [("name", Json.str "Acme Co")]) } {}
    { body := some (Json.bool false) }
    none (Except.ok none) (Json.obj [("name", Json.str "Acme Co")]) (Json.bool false)
    rfl rfl rfl rfl rfl rfl rfl rfl

/-- C9: in `fetchApi`, error-body field extraction is truthiness-based, not
presence-based: an empty-string `detail` makes the message fall back to the
`message` field (or the status text), while the `detail` carried by the
raised `ApiClientError` is populated exactly from a string-typed body
`detail` — a non-string detail, such as an array, becomes the message (it is
truthy) but never the error's detail. -/
theorem error_body_truthiness_detail_string_only
    (method path : String) (options : RequestOptions) (token : Option String)
    (resp₁ resp₂ resp₃ : Response) (body₁ body₂ body₃ : Json) (xs : List Json)
    (h₁ok : resp₁.ok = false) (h₁body : resp₁.jsonBody = some body₁)
    (h₁det : body₁.getField "detail" = some (Json.str ""))
    (h₂ok : resp₂.ok = false) (h₂body : resp₂.jsonBody = some body₂)
    (h₂det : body₂.getField "detail" = some (Json.arr xs))
    (h₃ok : resp₃.ok = false) (h₃body : resp₃.jsonBody = some body₃) :
    (fetchApi method path options token resp₁).result =
      Except.error (JsError.apiClientError
        (if truthyOpt (body₁.getField "message") then
           (body₁.getField "message").getD Json.null
         else Json.str ("API Error: " ++ resp₁.statusText))
        resp₁.status (some "")) ∧
    (fetchApi method path options token resp₂).result =
      Except.error (JsError.apiClientError (Json.arr xs) resp₂.status none) ∧
    (∀ (m : Json) (st : Nat) (s : String),
      (fetchApi method path options token resp₃).result =
        Except.error (JsError.apiClientError m st (some s)) →
      body₃.getField "detail" = some (Json.str s)) := by
  refine ⟨?_, ?_, ?_⟩
  · simp [fetchApi, h₁ok, h₁body, h₁det, truthyOpt, Json.truthy]
  · simp [fetchApi, h₂ok, h₂body, h₂det, truthyOpt, Json.truthy]
  · intro m st s h
    simp [fetchApi, h₃ok, h₃body] at h
    obtain ⟨-, -, hdet⟩ := h
    cases hd : body₃.getField "detail" with
    | none => rw [hd] at hdet; simp at hdet
    | some j =>
        cases j <;> rw [hd] at hdet <;> simp at hdet
        rw [hdet]

/-- C9 witness: an empty-string detail with a message field, an array detail,
and the detail-inversion, evaluated concretely. -/
theorem error_body_truthiness_detail_string_only_witness :
    (fetchApi "GET" "/api/v1/clients" {} none
        ⟨400, "Bad Request",
          some (Json.obj [("detail", Json.str ""),
            ("message", Json.str "bad input")])⟩).result =
      Except.error (JsError.apiClientError (Json.str "bad input") 400 (some "")) ∧
    (fetchApi "GET" "/api/v1/clients" {} none
        ⟨422, "Unprocessable Entity",
          some (Json.obj [("detail", Json.arr [Json.str "e1"])])⟩).result =
      Except.error (JsError.apiClientError (Json.arr [Json.str "e1"]) 422 none) ∧
    (∀ (m : Json) (st : Nat) (s : String),
      (fetchApi "GET" "/api/v1/clients" {} none
          ⟨400, "Bad Request",
            some (Json.obj [("detail", Json.str ""),
              ("message", Json.str "bad input")])⟩).result =
        Except.error (JsError.apiClientError m st (some s)) →
      (Json.obj [("detail", Json.str ""),
        ("message", Json.str "bad input")]).getField "detail" = some (Json.str s)) :=
  error_body_truthiness_detail_string_only "GET" "/api/v1/clients" {} none
    ⟨400, "Bad Request",
      some (Json.obj [("detail", Json.str ""), ("message", Json.str "bad input")])⟩
    ⟨422, "Unprocessable Entity", some (Json.obj [("detail", Json.arr [Json.str "e1"])])⟩
    ⟨400, "Bad Request",
      some (Json.obj [("detail", Json.str ""), ("message", Json.str "bad input")])⟩
    (Json.obj [("detail", Json.str ""), ("message", Json.str "bad input")])
    (Json.obj [("detail", Json.arr [Json.str "e1"])])
    (Json.obj [("detail", Json.str ""), ("message", Json.str "bad input")])
    [Json.str "e1"] rfl rfl rfl rfl rfl rfl rfl rfl

end AdsAdmin
